import Mathlib

/-!
Verification development for the AlarmoKeypad bridge.

The embedding models the two coordination cores of the repository:

* the command correlator: the `router.post` handler for
  `/api/alarm/updateAlarmState` in `src/api/alarm.js`, together with its
  `responseHandler` MQTT listener, its `responseTimeout` deadline callback
  and the helpers `mapEventToState` and `getErrorMessage`;
* the state broadcaster: the `mqttClient.on` message handler and the
  `io.on` connection handler in `src/server.js`.

JavaScript strings are Lean `String`s; the result of `JSON.parse` on an
event-topic body is abstracted by `EventParse` (either it throws, or it
yields an object whose `event` field is an optional string).  The mutable
closure variables of the Express handler (`hasResponded`, the pending
timer, the registered listener) become the explicit record `PendingState`;
an HTTP response sent through `res.status(...).json(...)` becomes an
`HttpResponse` value appended to a response list, and every `io.emit` /
`socket.emit` becomes a value in an emit list.  `server.js` always sets
`app.locals.io`, so the `if (io)` guards of the route are taken as true.
-/

namespace Alarmo

/-- An HTTP response sent by the route via `res.status(status).json(...)`.
Fields mirror the JSON bodies produced in `src/api/alarm.js`: `success`,
and the optional `message`, `event` and `state` properties. -/
structure HttpResponse where
  status : Nat
  success : Bool
  message : Option String := none
  event : Option String := none
  state : Option String := none
deriving DecidableEq, Repr

/-- A Socket.IO broadcast performed by the route (`io.emit(...)` in
`src/api/alarm.js`): either the timeout event `alarmUpdateTimeout` carrying
the request mode, or `alarmUpdateError` carrying an error code and text. -/
inductive SocketEmit where
  | alarmUpdateTimeout (mode : String)
  | alarmUpdateError (error : String) (message : String)
deriving DecidableEq, Repr

/-- The mutable per-request state of one `/updateAlarmState` call:
the `hasResponded` closure flag, whether the `setTimeout` deadline is still
pending (`timerActive`), and whether `responseHandler` is still registered
on the MQTT client (`listenerActive`). -/
structure PendingState where
  hasResponded : Bool
  timerActive : Bool
  listenerActive : Bool
deriving DecidableEq, Repr

/-- Outcome of `JSON.parse(message.toString())` on an event-topic body:
`ok ev` means parsing succeeded and the object's `event` property is `ev`
(`none` when the property is absent); `fail` means `JSON.parse` threw. -/
inductive EventParse where
  | ok (event : Option String)
  | fail
deriving DecidableEq, Repr

/-- An MQTT message as seen by `responseHandler`: its topic, its raw
string form `message.toString()`, and the abstract outcome of attempting
`JSON.parse` on that raw form. -/
structure MqttMessage where
  topic : String
  raw : String
  parse : EventParse
deriving DecidableEq, Repr

/-- A publish performed via `mqttClient.publish('alarmo/command',
JSON.stringify(\x7bcommand: mode, code: code\x7d))`. -/
structure PublishRecord where
  topic : String
  command : String
  code : String
deriving DecidableEq, Repr

/-- Port of `mapEventToState` in `src/api/alarm.js`. -/
def mapEventToState (event : String) : String :=
  if event = "ARM_AWAY" then "armed_away"
  else if event = "ARM_HOME" then "armed_home"
  else if event = "ARM_NIGHT" then "armed_night"
  else if event = "ARM_VACATION" then "armed_vacation"
  else if event = "ARM_CUSTOM_BYPASS" then "armed_custom_bypass"
  else if event = "TRIGGER" then "triggered"
  else "unknown"

/-- Port of `getErrorMessage` in `src/api/alarm.js`. -/
def getErrorMessage (event : String) : String :=
  if event = "FAILED_TO_ARM" then
    "Failed to arm the system. Please check if all sensors are closed."
  else if event = "COMMAND_NOT_ALLOWED" then
    "Command not allowed in the current state."
  else if event = "INVALID_CODE_PROVIDED" then
    "Invalid security code provided."
  else if event = "NO_CODE_PROVIDED" then
    "Security code is required for this operation."
  else "Failed to change the state of the alarm."

/-- Result of running one callback of the route (the MQTT listener or the
timer): the updated per-request state, the Socket.IO emits performed, and
the HTTP responses sent (in order). -/
structure HandlerResult where
  st : PendingState
  emits : List SocketEmit
  responses : List HttpResponse
deriving DecidableEq, Repr

/-- The per-request state after a settlement path ran: `hasResponded` set,
timer cleared, listener removed. -/
def settledState : PendingState := ⟨true, false, false⟩

/-- The `topic === 'alarmo/event'` block of `responseHandler`: the switch
over `response.event` guarded by `if (!hasResponded)`, and the catch block
for a `JSON.parse` failure. -/
def handleEventTopic (st : PendingState) (p : EventParse) : HandlerResult :=
  match p with
  | .ok ev =>
    if st.hasResponded then ⟨st, [], []⟩
    else
      match ev with
      | some e =>
        if e = "ARM_AWAY" ∨ e = "ARM_HOME" ∨ e = "ARM_NIGHT" ∨
            e = "ARM_VACATION" ∨ e = "ARM_CUSTOM_BYPASS" then
          ⟨settledState, [],
            [{ status := 200, success := true, event := some e,
               state := some (mapEventToState e) }]⟩
        else if e = "TRIGGER" then
          ⟨settledState, [],
            [{ status := 200, success := true, event := some e,
               state := some "triggered" }]⟩
        else if e = "FAILED_TO_ARM" ∨ e = "COMMAND_NOT_ALLOWED" ∨
            e = "INVALID_CODE_PROVIDED" ∨ e = "NO_CODE_PROVIDED" then
          ⟨settledState, [],
            [{ status := 400, success := false,
               message := some (getErrorMessage e), event := some e }]⟩
        else
          ⟨settledState, [],
            [{ status := 400, success := false,
               message := some "Unrecognized alarm event received",
               event := some e }]⟩
      | none =>
          ⟨settledState, [],
            [{ status := 400, success := false,
               message := some "Unrecognized alarm event received",
               event := none }]⟩
  | .fail =>
    if st.hasResponded then ⟨st, [], []⟩
    else
      ⟨settledState,
        [.alarmUpdateError "PARSE_ERROR" "Failed to parse alarm system response"],
        [{ status := 500, success := false,
           message := some "Failed to parse alarm system response" }]⟩

/-- The response sent by the `alarmo/state` branch of `responseHandler`
when the raw payload equals `disarmed`. -/
def disarmedOkResponse : HttpResponse :=
  { status := 200, success := true, event := some "DISARMED",
    state := some "disarmed" }

/-- Port of `responseHandler` in `src/api/alarm.js`.  The function runs the
`topic === 'alarmo/event'` block, then the `topic === 'alarmo/state'`
block on the resulting state, exactly as the source does in one
invocation.  Note the `alarmo/state` branch carries no `hasResponded`
guard in the source, and that `mode` is captured by the closure but never
read, so it is an unused parameter here. -/
def responseHandler (mode : String) (st : PendingState) (msg : MqttMessage) :
    HandlerResult :=
  let r1 :=
    if msg.topic = "alarmo/event" then handleEventTopic st msg.parse
    else ⟨st, [], []⟩
  if msg.topic = "alarmo/state" ∧ msg.raw = "disarmed" then
    ⟨settledState, r1.emits, r1.responses ++ [disarmedOkResponse]⟩
  else r1

/-- Port of the `setTimeout` callback (`responseTimeout`) in
`src/api/alarm.js`: when the deadline fires, if no settlement happened
yet, remove the listener, emit `alarmUpdateTimeout`, and send a 504.
The timer is no longer pending after it fires, whichever branch runs. -/
def responseTimeout (mode : String) (st : PendingState) : HandlerResult :=
  if st.hasResponded then ⟨{ st with timerActive := false }, [], []⟩
  else
    ⟨settledState,
      [.alarmUpdateTimeout mode],
      [{ status := 504, success := false,
         message := some "Timeout waiting for alarm system response",
         event := some "TIMEOUT" }]⟩

/-- The immediate effects of one POST to `/updateAlarmState`: the
per-request state left behind, the responses and Socket.IO emits already
performed, and the successful publishes to the command topic. -/
structure CommandInit where
  pending : PendingState
  responses : List HttpResponse
  emits : List SocketEmit
  publishes : List PublishRecord
deriving DecidableEq, Repr

/-- Port of the synchronous part of `router.post('/updateAlarmState')` in
`src/api/alarm.js`.  `code = ""` models the falsy `!code` guard for a
string credential.  When the credential is present the route starts the
deadline timer, registers `responseHandler` and publishes
`(command, code)` to `alarmo/command`; `publishOk = false` models
`mqttClient.publish` throwing, in which case the catch block clears the
timer, removes the listener, emits `alarmUpdateError` and sends a 500. -/
def updateAlarmState (mode code : String) (publishOk : Bool) : CommandInit :=
  if code = "" then
    { pending := settledState,
      responses := [{ status := 400, success := false,
                      message := some "Security code is required" }],
      emits := [], publishes := [] }
  else if publishOk then
    { pending := ⟨false, true, true⟩,
      responses := [], emits := [],
      publishes := [⟨"alarmo/command", mode, code⟩] }
  else
    { pending := settledState,
      responses := [{ status := 500, success := false,
                      message := some "Failed to send command to alarm system" }],
      emits := [.alarmUpdateError "MQTT_PUBLISH_ERROR"
                  "Failed to send command to alarm system"],
      publishes := [] }

/-- An occurrence the pending request can react to after the POST body
ran: delivery of an MQTT message, or the deadline timer firing. -/
inductive CmdInput where
  | mqtt (msg : MqttMessage)
  | timerFire
deriving DecidableEq, Repr

/-- Observable history of one command: its per-request state, the HTTP
responses sent so far and the Socket.IO emits performed so far. -/
structure SysState where
  pending : PendingState
  responses : List HttpResponse
  emits : List SocketEmit
deriving DecidableEq, Repr

/-- Append a callback's effects to the history. -/
def applyResult (s : SysState) (r : HandlerResult) : SysState :=
  ⟨r.st, s.responses ++ r.responses, s.emits ++ r.emits⟩

/-- One event-loop step.  `responseHandler` only runs while it is still
registered on the MQTT client, and the timer callback only runs while the
timeout is still pending (Node timers fire at most once and
`clearTimeout` prevents the callback). -/
def sysStep (mode : String) (s : SysState) : CmdInput → SysState
  | .mqtt msg =>
      if s.pending.listenerActive then
        applyResult s (responseHandler mode s.pending msg)
      else s
  | .timerFire =>
      if s.pending.timerActive then
        applyResult s (responseTimeout mode s.pending)
      else s

/-- Run a sequence of inputs through the event loop. -/
def sysRun (mode : String) (s : SysState) (inputs : List CmdInput) : SysState :=
  inputs.foldl (sysStep mode) s

/-- The whole lifecycle of one POST: the synchronous part followed by an
arbitrary sequence of message deliveries and timer firings. -/
def commandRun (mode code : String) (publishOk : Bool)
    (inputs : List CmdInput) : SysState :=
  sysRun mode ⟨(updateAlarmState mode code publishOk).pending,
               (updateAlarmState mode code publishOk).responses,
               (updateAlarmState mode code publishOk).emits⟩ inputs

/-- A `alarmStateChanged` notification from `src/server.js`.
`toNewObserverOnly = true` models `socket.emit` inside the connection
handler (delivered only to the connecting client); `false` models
`io.emit` inside the MQTT message handler (delivered to every connected
client).  The `timestamp` field of the source payload is wall-clock time
and is not modelled. -/
structure StateNotification where
  toNewObserverOnly : Bool
  topic : String
  state : String
deriving DecidableEq, Repr

/-- Port of the `mqttClient.on('message', ...)` handler in
`src/server.js`: on a state-topic message it overwrites
`app.locals.alarmState` with the raw payload and emits
`alarmStateChanged` to all clients; otherwise it does nothing.  Returns
the new cache value and the notifications emitted. -/
def serverOnMessage (alarmState : Option String) (topic raw : String) :
    Option String × List StateNotification :=
  if topic = "alarmo/state" ∨
      (topic.startsWith "alarmo/" ∧ topic.endsWith "/state") then
    (some raw, [⟨false, topic, raw⟩])
  else (alarmState, [])

/-- Port of the `io.on('connection', ...)` handler in `src/server.js`:
`if (app.locals.alarmState)` is JavaScript truthiness, so the cached value
is replayed to the connecting socket only when the cache is set to a
non-empty string; the replay goes through `socket.emit`, i.e. only to the
newly connected observer. -/
def onConnection : Option String → List StateNotification
  | some v => if v = "" then [] else [⟨true, "alarmo/state", v⟩]
  | none => []

theorem handleEventTopic_settles (st : PendingState) (p : EventParse)
    (h : st.hasResponded = false) :
    (handleEventTopic st p).st = settledState ∧
    (handleEventTopic st p).responses.length = 1 := by
  cases p with
  | fail => simp [handleEventTopic, h]
  | ok ev =>
    cases ev with
    | none => simp [handleEventTopic, h]
    | some e =>
      simp only [handleEventTopic, h]
      split_ifs <;> simp_all

theorem responseHandler_on_event (mode : String) (st : PendingState)
    (raw : String) (p : EventParse) :
    responseHandler mode st ⟨"alarmo/event", raw, p⟩ = handleEventTopic st p := by
  simp [responseHandler]

theorem responseHandler_spec (mode : String) (st : PendingState)
    (msg : MqttMessage) (h : st.hasResponded = false) :
    responseHandler mode st msg = ⟨st, [], []⟩ ∨
    ((responseHandler mode st msg).st = settledState ∧
     (responseHandler mode st msg).responses.length = 1) := by
  by_cases he : msg.topic = "alarmo/event"
  · right
    have hrw : responseHandler mode st msg = handleEventTopic st msg.parse := by
      have hs : ¬(msg.topic = "alarmo/state" ∧ msg.raw = "disarmed") := by
        rintro ⟨h1, -⟩
        rw [he] at h1
        exact absurd h1 (by decide)
      simp [responseHandler, he, hs]
    rw [hrw]
    exact handleEventTopic_settles st msg.parse h
  · by_cases hs : msg.topic = "alarmo/state" ∧ msg.raw = "disarmed"
    · right
      simp [responseHandler, he, hs.1, hs.2]
    · left
      simp [responseHandler, he, hs]

/-- Invariant of the per-command event loop: before settlement no response
was sent; after settlement at most one response was sent and both the
timer and the listener are released. -/
def CmdInv (s : SysState) : Prop :=
  (s.pending.hasResponded = false → s.responses = []) ∧
  (s.pending.hasResponded = true →
    s.responses.length ≤ 1 ∧ s.pending.timerActive = false ∧
    s.pending.listenerActive = false)

theorem sysStep_inv (mode : String) (s : SysState) (i : CmdInput)
    (h : CmdInv s) : CmdInv (sysStep mode s i) := by
  obtain ⟨h0, h1⟩ := h
  cases i with
  | mqtt msg =>
    by_cases hl : s.pending.listenerActive = true
    · have hr : s.pending.hasResponded = false := by
        cases hh : s.pending.hasResponded
        · rfl
        · exact absurd hl (by simp [(h1 hh).2.2])
      have hnew : sysStep mode s (.mqtt msg) =
          applyResult s (responseHandler mode s.pending msg) := by
        simp [sysStep, hl]
      rw [hnew]
      rcases responseHandler_spec mode s.pending msg hr with heq | ⟨ha, hb⟩
      · simp [applyResult, heq, CmdInv, h0 hr, hr]
      · constructor
        · intro hf
          simp only [applyResult] at hf
          rw [ha] at hf
          exact absurd hf (by decide)
        · intro _
          simp only [applyResult]
          rw [h0 hr, ha]
          simp [settledState, hb]
    · have hnew : sysStep mode s (.mqtt msg) = s := by
        simp [sysStep, hl]
      rw [hnew]
      exact ⟨h0, h1⟩
  | timerFire =>
    by_cases ht : s.pending.timerActive = true
    · have hr : s.pending.hasResponded = false := by
        cases hh : s.pending.hasResponded
        · rfl
        · exact absurd ht (by simp [(h1 hh).2.1])
      have hnew : sysStep mode s .timerFire =
          applyResult s (responseTimeout mode s.pending) := by
        simp [sysStep, ht]
      rw [hnew]
      constructor
      · intro hf
        simp [applyResult, responseTimeout, hr, settledState] at hf
      · intro _
        simp [applyResult, responseTimeout, hr, settledState, h0 hr]
    · have hnew : sysStep mode s .timerFire = s := by
        simp [sysStep, ht]
      rw [hnew]
      exact ⟨h0, h1⟩

theorem sysRun_inv (mode : String) (s : SysState) (inputs : List CmdInput)
    (h : CmdInv s) : CmdInv (sysRun mode s inputs) := by
  induction inputs generalizing s with
  | nil => exact h
  | cons i is ih => exact ih _ (sysStep_inv mode s i h)

theorem updateAlarmState_inv (mode code : String) (publishOk : Bool) :
    CmdInv ⟨(updateAlarmState mode code publishOk).pending,
            (updateAlarmState mode code publishOk).responses,
            (updateAlarmState mode code publishOk).emits⟩ := by
  unfold CmdInv updateAlarmState
  split_ifs <;> simp [settledState]

theorem commandRun_inv (mode code : String) (publishOk : Bool)
    (inputs : List CmdInput) : CmdInv (commandRun mode code publishOk inputs) :=
  sysRun_inv mode _ inputs (updateAlarmState_inv mode code publishOk)

theorem sysStep_released (mode : String) (s : SysState) (i : CmdInput)
    (hl : s.pending.listenerActive = false)
    (ht : s.pending.timerActive = false) :
    sysStep mode s i = s := by
  cases i <;> simp [sysStep, hl, ht]

theorem sysRun_released (mode : String) (s : SysState) (inputs : List CmdInput)
    (hl : s.pending.listenerActive = false)
    (ht : s.pending.timerActive = false) :
    sysRun mode s inputs = s := by
  induction inputs with
  | nil => rfl
  | cons i is ih =>
    show sysRun mode (sysStep mode s i) is = s
    rw [sysStep_released mode s i hl ht]
    exact ih

/-- The per-request state right after a successful publish: unsettled,
timer pending, listener registered. -/
def freshPending : PendingState := ⟨false, true, true⟩

/-- The state-topic broadcast whose raw payload is `disarmed`
(`JSON.parse` of that raw form throws, hence `.fail`). -/
def disarmedStateMsg : MqttMessage := ⟨"alarmo/state", "disarmed", .fail⟩

/-- C1: for every mode, credential and publish outcome, a single call to
POST /api/alarm/updateAlarmState sends at most one HTTP response across
its whole lifecycle (the synchronous part followed by any sequence of
MQTT deliveries and timer firings), and once any response has been sent
the deadline timer is no longer pending and the message listener is
deregistered, so no residual listener survives settlement. -/
theorem C1_settles_exactly_once (mode code : String) (publishOk : Bool)
    (inputs : List CmdInput) :
    (commandRun mode code publishOk inputs).responses.length ≤ 1 ∧
    ((commandRun mode code publishOk inputs).responses ≠ [] →
      (commandRun mode code publishOk inputs).pending.timerActive = false ∧
      (commandRun mode code publishOk inputs).pending.listenerActive = false) := by
  obtain ⟨h0, h1⟩ := commandRun_inv mode code publishOk inputs
  constructor
  · cases hh : (commandRun mode code publishOk inputs).pending.hasResponded
    · simp [h0 hh]
    · exact (h1 hh).1
  · intro hne
    cases hh : (commandRun mode code publishOk inputs).pending.hasResponded
    · exact absurd (h0 hh) hne
    · exact ⟨(h1 hh).2.1, (h1 hh).2.2⟩

/-- C1 witness: a concrete run (publish succeeds, then the deadline
fires) where the single timeout response is sent and both resources are
released. -/
theorem C1_settles_exactly_once_witness :
    (commandRun "arm_away" "1234" true [.timerFire]).responses.length ≤ 1 ∧
    ((commandRun "arm_away" "1234" true [.timerFire]).pending.timerActive = false ∧
     (commandRun "arm_away" "1234" true [.timerFire]).pending.listenerActive = false) :=
  ⟨(C1_settles_exactly_once "arm_away" "1234" true [.timerFire]).1,
   (C1_settles_exactly_once "arm_away" "1234" true [.timerFire]).2 (by decide)⟩

/-- C2 counterexample: a pending command whose mode is `arm_home` (not
`disarm`) IS settled with a 200 Success by a state-topic message equal to
`disarmed` — the handler never consults the request mode, refuting the
claim that such a message does not settle commands of other modes. -/
theorem C2_counterexample :
    (responseHandler "arm_home" freshPending disarmedStateMsg).st.hasResponded
        = true ∧
    (responseHandler "arm_home" freshPending disarmedStateMsg).responses =
      [disarmedOkResponse] := by decide

/-- C2 amended: a state-topic message equal to `disarmed` settles a
pending command with Success (event DISARMED, state disarmed) for every
mode, not only for mode `disarm`. -/
theorem C2_amended_disarmed_settles_any_mode (mode : String)
    (st : PendingState) (h : st.hasResponded = false) :
    responseHandler mode st disarmedStateMsg =
      ⟨settledState, [], [disarmedOkResponse]⟩ := by
  simp [responseHandler, disarmedStateMsg]

/-- C2 amended witness: concrete instance at mode `arm_away` from a fresh
pending state. -/
theorem C2_amended_witness :
    responseHandler "arm_away" freshPending disarmedStateMsg =
      ⟨settledState, [], [disarmedOkResponse]⟩ :=
  C2_amended_disarmed_settles_any_mode "arm_away" freshPending rfl

/-- C3: for every pending command, an event-topic message decoding to one
of ARM_AWAY, ARM_HOME, ARM_NIGHT, ARM_VACATION, ARM_CUSTOM_BYPASS,
TRIGGER settles the command with a 200 Success carrying that event and
the mapped state (armed_away, armed_home, armed_night, armed_vacation,
armed_custom_bypass, triggered respectively). -/
theorem C3_arming_events_settle_success (mode : String) (st : PendingState)
    (raw e s : String) (h : st.hasResponded = false)
    (he : (e, s) ∈ [("ARM_AWAY", "armed_away"), ("ARM_HOME", "armed_home"),
      ("ARM_NIGHT", "armed_night"), ("ARM_VACATION", "armed_vacation"),
      ("ARM_CUSTOM_BYPASS", "armed_custom_bypass"), ("TRIGGER", "triggered")]) :
    responseHandler mode st ⟨"alarmo/event", raw, .ok (some e)⟩ =
      ⟨settledState, [],
        [{ status := 200, success := true, event := some e,
           state := some s }]⟩ := by
  rw [responseHandler_on_event]
  fin_cases he <;> simp [handleEventTopic, h, mapEventToState]

/-- C3 witness: event ARM_AWAY settles a fresh pending command with state
armed_away. -/
theorem C3_witness :
    responseHandler "arm_away" freshPending
        ⟨"alarmo/event", "x", .ok (some "ARM_AWAY")⟩ =
      ⟨settledState, [],
        [{ status := 200, success := true, event := some "ARM_AWAY",
           state := some "armed_away" }]⟩ :=
  C3_arming_events_settle_success "arm_away" freshPending "x"
    "ARM_AWAY" "armed_away" rfl (by decide)

/-- C4: for every pending command, an event-topic message decoding to one
of the four rejection events settles the command with a 400 domain error
carrying the event and its specific message from `getErrorMessage`; any
other JSON-decodable event content (an unlisted event string, or a
missing event property) settles with the
`Unrecognized alarm event received` domain error. -/
theorem C4_rejections_and_unrecognized :
    (∀ (mode : String) (st : PendingState) (raw e m : String),
      st.hasResponded = false →
      (e, m) ∈ [("FAILED_TO_ARM",
          "Failed to arm the system. Please check if all sensors are closed."),
        ("COMMAND_NOT_ALLOWED", "Command not allowed in the current state."),
        ("INVALID_CODE_PROVIDED", "Invalid security code provided."),
        ("NO_CODE_PROVIDED", "Security code is required for this operation.")] →
      responseHandler mode st ⟨"alarmo/event", raw, .ok (some e)⟩ =
        ⟨settledState, [],
          [{ status := 400, success := false, message := some m,
             event := some e }]⟩) ∧
    (∀ (mode : String) (st : PendingState) (raw e : String),
      st.hasResponded = false →
      e ∉ ["ARM_AWAY", "ARM_HOME", "ARM_NIGHT", "ARM_VACATION",
        "ARM_CUSTOM_BYPASS", "TRIGGER", "FAILED_TO_ARM",
        "COMMAND_NOT_ALLOWED", "INVALID_CODE_PROVIDED", "NO_CODE_PROVIDED"] →
      responseHandler mode st ⟨"alarmo/event", raw, .ok (some e)⟩ =
        ⟨settledState, [],
          [{ status := 400, success := false,
             message := some "Unrecognized alarm event received",
             event := some e }]⟩) ∧
    (∀ (mode : String) (st : PendingState) (raw : String),
      st.hasResponded = false →
      responseHandler mode st ⟨"alarmo/event", raw, .ok none⟩ =
        ⟨settledState, [],
          [{ status := 400, success := false,
             message := some "Unrecognized alarm event received",
             event := none }]⟩) := by
  refine ⟨?_, ?_, ?_⟩
  · intro mode st raw e m h he
    rw [responseHandler_on_event]
    fin_cases he <;> simp [handleEventTopic, h, getErrorMessage]
  · intro mode st raw e h he
    simp only [List.mem_cons, List.not_mem_nil, or_false, not_or] at he
    obtain ⟨h1, h2, h3, h4, h5, h6, h7, h8, h9, h10⟩ := he
    rw [responseHandler_on_event]
    simp [handleEventTopic, h, h1, h2, h3, h4, h5, h6, h7, h8, h9, h10]
  · intro mode st raw h
    rw [responseHandler_on_event]
    simp [handleEventTopic, h]

/-- C4 witness: INVALID_CODE_PROVIDED yields its specific 400 message, an
unlisted event string yields the unrecognized-event 400. -/
theorem C4_witness :
    responseHandler "arm_away" freshPending
        ⟨"alarmo/event", "x", .ok (some "INVALID_CODE_PROVIDED")⟩ =
      ⟨settledState, [],
        [{ status := 400, success := false,
           message := some "Invalid security code provided.",
           event := some "INVALID_CODE_PROVIDED" }]⟩ ∧
    responseHandler "arm_away" freshPending
        ⟨"alarmo/event", "x", .ok (some "BOGUS")⟩ =
      ⟨settledState, [],
        [{ status := 400, success := false,
           message := some "Unrecognized alarm event received",
           event := some "BOGUS" }]⟩ :=
  ⟨C4_rejections_and_unrecognized.1 "arm_away" freshPending "x"
      "INVALID_CODE_PROVIDED" "Invalid security code provided." rfl (by decide),
   C4_rejections_and_unrecognized.2.1 "arm_away" freshPending "x" "BOGUS"
      rfl (by decide)⟩

/-- C5 counterexample: a pending command settled by the domain rejection
INVALID_CODE_PROVIDED sends the 400 response to the caller but performs
ZERO Socket.IO emits — the rejection is not broadcast to observers,
refuting the claim that every domain rejection is broadcast. -/
theorem C5_counterexample :
    (responseHandler "arm_away" freshPending
        ⟨"alarmo/event", "x", .ok (some "INVALID_CODE_PROVIDED")⟩).responses =
      [{ status := 400, success := false,
         message := some "Invalid security code provided.",
         event := some "INVALID_CODE_PROVIDED" }] ∧
    (responseHandler "arm_away" freshPending
        ⟨"alarmo/event", "x", .ok (some "INVALID_CODE_PROVIDED")⟩).emits =
      [] := by decide

/-- C5 amended: a Timeout settlement is broadcast to all observers (the
`alarmUpdateTimeout` emit carrying the mode occurs), but a settlement by
one of the four domain-rejection events performs no broadcast — only the
direct caller learns of a domain rejection (broadcasts additionally occur
for parse errors and publish failures, not for domain rejections). -/
theorem C5_amended_broadcasts (mode : String) (st : PendingState)
    (h : st.hasResponded = false) :
    (responseTimeout mode st).emits = [SocketEmit.alarmUpdateTimeout mode] ∧
    (∀ (raw e : String),
      e ∈ ["FAILED_TO_ARM", "COMMAND_NOT_ALLOWED", "INVALID_CODE_PROVIDED",
        "NO_CODE_PROVIDED"] →
      (responseHandler mode st ⟨"alarmo/event", raw, .ok (some e)⟩).emits =
        []) := by
  constructor
  · simp [responseTimeout, h]
  · intro raw e he
    rw [responseHandler_on_event]
    fin_cases he <;> simp [handleEventTopic, h]

/-- C5 amended witness: concrete timeout broadcast and silent rejection
from a fresh pending state. -/
theorem C5_amended_witness :
    (responseTimeout "arm_away" freshPending).emits =
      [SocketEmit.alarmUpdateTimeout "arm_away"] ∧
    (responseHandler "arm_away" freshPending
        ⟨"alarmo/event", "y", .ok (some "FAILED_TO_ARM")⟩).emits = [] :=
  ⟨(C5_amended_broadcasts "arm_away" freshPending rfl).1,
   (C5_amended_broadcasts "arm_away" freshPending rfl).2 "y" "FAILED_TO_ARM"
      (by decide)⟩

/-- C6: a POST with an empty credential settles immediately with the 400
validation error `Security code is required`, publishes nothing to the
command topic, registers no listener and leaves no pending timer. -/
theorem C6_empty_code_validation (mode : String) (publishOk : Bool) :
    updateAlarmState mode "" publishOk =
      { pending := settledState,
        responses := [{ status := 400, success := false,
                        message := some "Security code is required" }],
        emits := [], publishes := [] } ∧
    (updateAlarmState mode "" publishOk).publishes = [] ∧
    (updateAlarmState mode "" publishOk).pending.listenerActive = false ∧
    (updateAlarmState mode "" publishOk).pending.timerActive = false := by
  simp [updateAlarmState, settledState]

/-- C7: when the publish to the command topic fails, the command settles
with the 500 publish-failure error, the deadline timer is not pending
afterwards, and no input sequence thereafter can ever add a response — in
particular no Timeout settlement can occur for that command. -/
theorem C7_publish_failure_no_timeout (mode code : String)
    (inputs : List CmdInput) (h : code ≠ "") :
    (updateAlarmState mode code false).responses =
      [{ status := 500, success := false,
         message := some "Failed to send command to alarm system" }] ∧
    (updateAlarmState mode code false).pending.timerActive = false ∧
    (commandRun mode code false inputs).responses =
      [{ status := 500, success := false,
         message := some "Failed to send command to alarm system" }] := by
  have hinit : updateAlarmState mode code false =
      { pending := settledState,
        responses := [{ status := 500, success := false,
                        message := some "Failed to send command to alarm system" }],
        emits := [.alarmUpdateError "MQTT_PUBLISH_ERROR"
                    "Failed to send command to alarm system"],
        publishes := [] } := by
    simp [updateAlarmState, h]
  have hrun : commandRun mode code false inputs =
      ⟨settledState,
        [{ status := 500, success := false,
           message := some "Failed to send command to alarm system" }],
        [.alarmUpdateError "MQTT_PUBLISH_ERROR"
            "Failed to send command to alarm system"]⟩ := by
    unfold commandRun
    rw [hinit]
    exact sysRun_released mode _ inputs rfl rfl
  exact ⟨by rw [hinit], by rw [hinit]; rfl, by rw [hrun]⟩

/-- C7 witness: concrete publish failure for arm_away/1234 followed by a
timer firing and a message delivery, neither of which adds a response. -/
theorem C7_witness :
    (updateAlarmState "arm_away" "1234" false).responses =
      [{ status := 500, success := false,
         message := some "Failed to send command to alarm system" }] ∧
    (updateAlarmState "arm_away" "1234" false).pending.timerActive = false ∧
    (commandRun "arm_away" "1234" false
        [.timerFire, .mqtt disarmedStateMsg]).responses =
      [{ status := 500, success := false,
         message := some "Failed to send command to alarm system" }] :=
  C7_publish_failure_no_timeout "arm_away" "1234"
    [.timerFire, .mqtt disarmedStateMsg] (by decide)

/-- C8 counterexample: the state cache can hold the empty string (any
state-topic payload is cached verbatim), yet an observer registering at
that point receives zero notifications, not exactly one — the replay
guard is JavaScript truthiness, refuting the claim for the cached value
`""`. -/
theorem C8_counterexample :
    serverOnMessage none "alarmo/state" "" = (some "", [⟨false, "alarmo/state", ""⟩]) ∧
    (onConnection (some "")).length = 0 := by decide

/-- C8 amended: an observer registering while the cache holds a NON-EMPTY
value v receives exactly one notification, with topic alarmo/state and
state v, delivered only to the newly registered observer; an observer
registering while the cache is empty (or holds the empty string) receives
nothing. -/
theorem C8_amended_replay (v : String) (h : v ≠ "") :
    onConnection (some v) = [⟨true, "alarmo/state", v⟩] ∧
    (onConnection (some v)).length = 1 ∧
    (∀ n ∈ onConnection (some v), n.toNewObserverOnly = true) ∧
    onConnection none = [] := by
  simp [onConnection, h]

/-- C8 amended witness: replay of a cached `armed_home` to the connecting
observer only. -/
theorem C8_amended_witness :
    onConnection (some "armed_home") = [⟨true, "alarmo/state", "armed_home"⟩] ∧
    (onConnection (some "armed_home")).length = 1 ∧
    (∀ n ∈ onConnection (some "armed_home"), n.toNewObserverOnly = true) ∧
    onConnection none = [] :=
  C8_amended_replay "armed_home" (by decide)

/-- C9: the reply matcher never inspects the request mode —
`responseHandler` yields identical results for any two modes on every
message; in particular a pending `arm_home` command is settled with a 200
Success (state armed_away) by an ARM_AWAY event, so concurrent commands
against the same panel can be settled by each other's replies. -/
theorem C9_mode_never_inspected :
    (∀ (m m' : String) (st : PendingState) (msg : MqttMessage),
      responseHandler m st msg = responseHandler m' st msg) ∧
    (∀ (st : PendingState) (raw : String), st.hasResponded = false →
      responseHandler "arm_home" st ⟨"alarmo/event", raw, .ok (some "ARM_AWAY")⟩ =
        ⟨settledState, [],
          [{ status := 200, success := true, event := some "ARM_AWAY",
             state := some "armed_away" }]⟩) := by
  constructor
  · intro m m' st msg
    rfl
  · intro st raw h
    rw [responseHandler_on_event]
    simp [handleEventTopic, h, mapEventToState]

/-- C9 witness: the cross-match at a fresh pending arm_home command. -/
theorem C9_witness :
    responseHandler "arm_home" freshPending
        ⟨"alarmo/event", "x", .ok (some "ARM_AWAY")⟩ =
      ⟨settledState, [],
        [{ status := 200, success := true, event := some "ARM_AWAY",
           state := some "armed_away" }]⟩ :=
  C9_mode_never_inspected.2 freshPending "x" rfl

/-- C10: the State Broadcaster forwards every state-topic payload
verbatim: for every prior cache value and every incoming string s on
`alarmo/state` (including strings outside the SystemState enumeration),
the cache is overwritten with exactly s and a notification with state
exactly s is emitted to all observers. -/
theorem C10_verbatim_forwarding (alarmState : Option String) (raw : String) :
    serverOnMessage alarmState "alarmo/state" raw =
      (some raw, [⟨false, "alarmo/state", raw⟩]) := by
  simp [serverOnMessage]

end Alarmo
